import Mathlib

/-!
Verification of the Mental-Health-Chatbot sentiment / crisis pipeline.

Shallow embedding of:
* `src/sentiment/analyzer.py` (keyword tables, crisis indicators, mental-state
  flags, score blending, emotion categorisation, default result),
* `src/chatbot/crisis_handler.py` (weighted crisis decision),
* `src/hf_config.py` (crisis keyword table),
* `src/hybrid_chatbot.py` (orchestrator escalation),
* `src/chatbot/session_manager.py` (in-memory mood tracking),
* `src/database/user_manager.py` (chat-session end bookkeeping).

Text is modelled as `List Char`; the two external polarity scorers (VADER,
TextBlob) are oracles, i.e. parameters of type `List Char → ℚ`; floating-point
scores are modelled as rationals.
-/

namespace MHC

/-- Python's substring test `kw in text`, on character lists: `kw` occurs
contiguously somewhere in `text`. -/
def containsSub (kw : List Char) : List Char → Bool
  | [] => kw.isPrefixOf []
  | c :: rest => kw.isPrefixOf (c :: rest) || containsSub kw rest

/-- Python's `str.lower()` (modelled characterwise). -/
def pyLower (text : List Char) : List Char := text.map Char.toLower

/-- Python's `str.strip()`: drop leading and trailing whitespace. -/
def pyStrip (text : List Char) : List Char :=
  ((text.dropWhile Char.isWhitespace).reverse.dropWhile Char.isWhitespace).reverse

/-- `analyzer.py`: text normalisation `text.lower().strip()`. -/
def normalizeText (text : List Char) : List Char := pyStrip (pyLower text)

/-! ### Keyword tables (`analyzer.py`, class `MentalHealthKeywords`) -/

/-- `MentalHealthKeywords.CRISIS_PHRASES`. -/
def CRISIS_PHRASES : List (List Char) :=
  ["i want to hurt myself".toList,
   "i want to die".toList,
   "i\'m suicidal".toList,
   "i am suicidal".toList,
   "suicidal thoughts".toList,
   "suicide".toList,
   "kill myself".toList,
   "end my life".toList,
   "no point living".toList,
   "life not worth living".toList,
   "better off dead".toList,
   "don\'t want to live".toList,
   "wish i was dead".toList]

/-- `MentalHealthKeywords.SELF_HARM_KEYWORDS`. -/
def SELF_HARM_KEYWORDS : List (List Char) :=
  ["cutting myself".toList,
   "self-harm".toList,
   "self harm".toList,
   "overdose".toList,
   "hanging".toList,
   "jumping off".toList,
   "drowning".toList,
   "slitting wrists".toList,
   "razor blade".toList,
   "cutting".toList,
   "harming myself".toList,
   "hurt myself".toList]

/-- `MentalHealthKeywords.STRESS_KEYWORDS`. -/
def STRESS_KEYWORDS : List (List Char) :=
  ["stressed".toList, "anxious".toList, "anxiety".toList, "worried".toList,
   "nervous".toList, "overwhelmed".toList, "panic".toList, "panicking".toList,
   "afraid".toList, "scared".toList, "tension".toList, "tense".toList,
   "uneasy".toList, "agitated".toList, "frantic".toList]

/-- `MentalHealthKeywords.DEPRESSION_KEYWORDS`. -/
def DEPRESSION_KEYWORDS : List (List Char) :=
  ["depressed".toList, "depression".toList, "sad".toList, "sadness".toList,
   "unhappy".toList, "hopeless".toList, "hopelessness".toList,
   "worthless".toList, "empty".toList, "meaningless".toList, "lost".toList,
   "gloomy".toList, "melancholy".toList, "miserable".toList, "down".toList,
   "low".toList]

/-- `MentalHealthKeywords.POSITIVE_KEYWORDS`. -/
def POSITIVE_KEYWORDS : List (List Char) :=
  ["happy".toList, "joyful".toList, "good".toList, "great".toList,
   "wonderful".toList, "amazing".toList, "grateful".toList, "blessed".toList,
   "hopeful".toList, "confident".toList, "peaceful".toList, "excited".toList,
   "proud".toList, "loved".toList, "supported".toList]

/-- `hf_config.py`: `CRISIS_KEYWORDS` — a plain list, not a weight mapping. -/
def CRISIS_KEYWORDS : List (List Char) :=
  ["kill myself".toList, "suicide".toList, "want to die".toList,
   "no point living".toList, "end it all".toList, "hurt myself".toList,
   "self harm".toList, "overdose".toList, "jump".toList, "harm".toList,
   "death".toList, "dying".toList, "dead".toList]

/-! ### Enumerations of `analyzer.py` -/

/-- `EmotionCategory` enum. -/
inductive EmotionCategory where
  | very_negative
  | negative
  | slightly_negative
  | neutral
  | slightly_positive
  | positive
  | very_positive
deriving DecidableEq, Repr

/-- `CrisisSeverity` enum. -/
inductive CrisisSeverity where
  | critical
  | high
  | moderate
  | none
deriving DecidableEq, Repr

/-! ### `analyzer.py`: SentimentAnalyzer -/

/-- `SentimentAnalyzer._detect_crisis_indicators`: substring scan of the
crisis-phrase list, then the self-harm keyword list, over the normalised
(lowercased) text; any hit is CRITICAL, no hit is NONE. -/
def detect_crisis_indicators (text : List Char) : Bool × CrisisSeverity :=
  if text.isEmpty then (false, CrisisSeverity.none)
  else if CRISIS_PHRASES.any (fun phrase => containsSub phrase text) then
    (true, CrisisSeverity.critical)
  else if SELF_HARM_KEYWORDS.any (fun keyword => containsSub keyword text) then
    (true, CrisisSeverity.critical)
  else (false, CrisisSeverity.none)

/-- Python's `\w` character class, restricted to ASCII (all keywords and all
inputs considered here are ASCII): letters, digits and the underscore. -/
def isWordChar (c : Char) : Bool := c.isAlphanum || c == '_'

/-- A regex word boundary `\b` next to an occurrence: the adjacent character
(`Option.none` at either end of the text) must not be a word character. -/
def boundaryOk (adjacent : Option Char) : Bool :=
  match adjacent with
  | Option.none => true
  | Option.some c => !isWordChar c

/-- One candidate position of `re.search(r"\b kw \b", text)`: `prev` is the
character just before the position (`Option.none` at the start of the text). -/
def matchHere (kw : List Char) (prev : Option Char) (t : List Char) : Bool :=
  boundaryOk prev && kw.isPrefixOf t && boundaryOk (t.drop kw.length).head?

/-- `re.search(r"\b" + re.escape(kw) + r"\b", text)` scanned left to right from
the position after `prev`. -/
def wbSearch (kw : List Char) : Option Char → List Char → Bool
  | prev, [] => matchHere kw prev []
  | prev, c :: rest => matchHere kw prev (c :: rest) || wbSearch kw (some c) rest

/-- `has_keyword` of `SentimentAnalyzer._detect_mental_state`: some keyword of
the list occurs in the text at a word boundary on both sides. -/
def has_keyword (text : List Char) (keywords : List (List Char)) : Bool :=
  keywords.any (fun kw => wbSearch kw Option.none text)

/-- The four mental-state flags of `SentimentAnalyzer._detect_mental_state`. -/
structure MentalState where
  stress_indicators : Bool
  depression_indicators : Bool
  positive_indicators : Bool
  self_harm_indicators : Bool
deriving DecidableEq, Repr

/-- `SentimentAnalyzer._detect_mental_state`: stress, depression and positive
flags via word-boundary search; the self-harm flag via plain substring
containment (`any(kw in text ...)` in the source). -/
def detect_mental_state (text : List Char) : MentalState :=
  { stress_indicators := has_keyword text STRESS_KEYWORDS
    depression_indicators := has_keyword text DEPRESSION_KEYWORDS
    positive_indicators := has_keyword text POSITIVE_KEYWORDS
    self_harm_indicators := SELF_HARM_KEYWORDS.any (fun kw => containsSub kw text) }

/-- `SentimentAnalyzer._combine_sentiment_scores`: the weighted average
`vader_compound * 0.6 + textblob_score * 0.4` clamped to `[-1, 1]`. -/
def combine_sentiment_scores (vaderCompound textblobPolarity : ℚ) : ℚ :=
  max (-1) (min 1 (vaderCompound * (6 / 10) + textblobPolarity * (4 / 10)))

/-- `SentimentAnalyzer._categorize_emotion`: the threshold chain on the
combined score. -/
def categorize_emotion (sentimentScore : ℚ) : EmotionCategory :=
  if sentimentScore ≤ -(75 / 100) then EmotionCategory.very_negative
  else if sentimentScore ≤ -(25 / 100) then EmotionCategory.negative
  else if sentimentScore ≤ -(5 / 100) then EmotionCategory.slightly_negative
  else if sentimentScore ≤ 5 / 100 then EmotionCategory.neutral
  else if sentimentScore ≤ 25 / 100 then EmotionCategory.slightly_positive
  else if sentimentScore ≤ 75 / 100 then EmotionCategory.positive
  else EmotionCategory.very_positive

/-- `SentimentAnalyzer._get_emotion_intensity`: `abs(sentiment_score)`. -/
def get_emotion_intensity (sentimentScore : ℚ) : ℚ := |sentimentScore|

/-- The fields of the dictionary `analyze_sentiment` returns (the wall-clock
`analysis_timestamp` and the raw VADER sub-scores other than `compound` are
not modelled). -/
structure SentimentResult where
  raw_text : List Char
  text_normalized : List Char
  vader_compound : ℚ
  textblob_polarity : ℚ
  combined_sentiment_score : ℚ
  emotion_category : EmotionCategory
  emotion_intensity : ℚ
  mental_state_detected : MentalState
  crisis_detected : Bool
  crisis_severity : CrisisSeverity
deriving DecidableEq, Repr

/-- `SentimentAnalyzer._get_default_sentiment`. -/
def get_default_sentiment : SentimentResult :=
  { raw_text := []
    text_normalized := []
    vader_compound := 0
    textblob_polarity := 0
    combined_sentiment_score := 0
    emotion_category := EmotionCategory.neutral
    emotion_intensity := 0
    mental_state_detected :=
      { stress_indicators := false
        depression_indicators := false
        positive_indicators := false
        self_harm_indicators := false }
    crisis_detected := false
    crisis_severity := CrisisSeverity.none }

/-- The two external polarity scorers (VADER's compound score and TextBlob's
polarity), as oracles over the original-case text. -/
structure Scorers where
  vaderCompound : List Char → ℚ
  textblobPolarity : List Char → ℚ

/-- A value a Python caller may pass to `analyze_sentiment`: `None`, a string,
or a non-string value. -/
inductive PyValue where
  | pynone
  | pystr (s : List Char)
  | nonStr
deriving DecidableEq

/-- `SentimentAnalyzer.analyze_sentiment`: the guard
`if not text or not isinstance(text, str)` returns the default result;
otherwise the text is normalised and the full result assembled. -/
def analyze_sentiment (o : Scorers) (input : PyValue) : SentimentResult :=
  match input with
  | PyValue.pynone => get_default_sentiment
  | PyValue.nonStr => get_default_sentiment
  | PyValue.pystr text =>
    if text.isEmpty then get_default_sentiment
    else
      let textLower := normalizeText text
      let crisis := detect_crisis_indicators textLower
      let vaderCompound := o.vaderCompound text
      let textblobPolarity := o.textblobPolarity text
      let combined := combine_sentiment_scores vaderCompound textblobPolarity
      { raw_text := text
        text_normalized := textLower
        vader_compound := vaderCompound
        textblob_polarity := textblobPolarity
        combined_sentiment_score := combined
        emotion_category := categorize_emotion combined
        emotion_intensity := get_emotion_intensity combined
        mental_state_detected := detect_mental_state textLower
        crisis_detected := crisis.1
        crisis_severity := crisis.2 }

/-! ### `crisis_handler.py`: CrisisHandler -/

/-- `CrisisHandler.crisis_threshold`. -/
def crisis_threshold : ℚ := 80 / 100

/-- The keyword loop of `CrisisHandler.detect_crisis` on the list-shaped
table (`CRISIS_KEYWORDS` of `hf_config.py` is a list, so the `else` branch
runs): each matched keyword is appended with the fixed weight `0.9`, and
`max_severity` is set to `0.9` on any match. -/
def crisisKeywordFold (kws : List (List Char)) (textLower : List Char) :
    List (List Char × ℚ) × ℚ :=
  kws.foldl
    (fun acc kw =>
      if containsSub kw textLower then (acc.1 ++ [(kw, 9 / 10)], 9 / 10) else acc)
    ([], 0)

/-- `CrisisHandler.detect_crisis`: lowercase the text, scan the crisis
keyword list, bump the severity by `0.1` (capped at `1.0`) when the sentiment
score is below `-0.7` and a keyword matched, and compare against the `0.80`
threshold. Returns `(is_crisis, max_severity, keywords_found)`. -/
def detect_crisis (text : List Char) (sentimentScore : ℚ) :
    Bool × ℚ × List (List Char × ℚ) :=
  let textLower := pyLower text
  let folded := crisisKeywordFold CRISIS_KEYWORDS textLower
  let foundKeywords := folded.1
  let maxSeverity :=
    if sentimentScore < -(7 / 10) ∧ foundKeywords ≠ [] then
      min 1 (folded.2 + 1 / 10)
    else folded.2
  (decide (maxSeverity ≥ crisis_threshold), maxSeverity, foundKeywords)

/-- `CrisisHandler.get_crisis_response`, keeping only what drives control
flow: whether a crisis was detected (the formatted response text is template
material and is not modelled). -/
def get_crisis_response_flag (text : List Char) (sentimentScore : ℚ) : Bool :=
  (detect_crisis text sentimentScore).1

/-! ### `hybrid_chatbot.py`: the orchestrator's crisis escalation -/

/-- Step 2 of `HybridMentalHealthChatbot.process_user_message`: the combined
sentiment score of the message, with the external scorers as oracles. -/
def process_sentiment_score (o : Scorers) (userMessage : List Char) : ℚ :=
  (analyze_sentiment o (PyValue.pystr userMessage)).combined_sentiment_score

/-- Steps 4–5 of `HybridMentalHealthChatbot.process_user_message`: the
`is_crisis` flag that decides between the crisis template and the generative
response. It is exactly the crisis handler's verdict on the raw message and
the combined sentiment score. -/
def process_is_crisis (o : Scorers) (userMessage : List Char) : Bool :=
  get_crisis_response_flag userMessage (process_sentiment_score o userMessage)

/-! ### `session_manager.py`: UserSession mood tracking -/

/-- A mood snapshot as `UserSession.record_mood` stores it (the ISO timestamp
is modelled as an abstract tick). -/
structure MoodEntry where
  timestamp : Nat
  emotion_category : EmotionCategory
  sentiment_score : ℚ
  crisis_detected : Bool
  mental_state : MentalState
deriving DecidableEq, Repr

/-- The in-memory `UserSession` state touched by mood tracking. -/
structure UserSession where
  conversation_history : List (List Char × List Char)
  mood_log : List MoodEntry
  initial_mood : Option MoodEntry
  current_mood : Option MoodEntry
  session_active : Bool
deriving DecidableEq

/-- A freshly constructed `UserSession`. -/
def freshSession : UserSession :=
  { conversation_history := []
    mood_log := []
    initial_mood := Option.none
    current_mood := Option.none
    session_active := true }

/-- `UserSession.record_mood`: append to the mood log, set the initial mood
only if it is not set yet, always overwrite the current mood. -/
def record_mood (s : UserSession) (entry : MoodEntry) : UserSession :=
  { s with
    mood_log := s.mood_log ++ [entry]
    initial_mood :=
      match s.initial_mood with
      | Option.none => some entry
      | Option.some m => some m
    current_mood := some entry }

/-- The two shapes of dictionary `UserSession.get_mood_change` returns:
`noData` stands for `\x7bchange: 0, improved: False\x7d`. -/
inductive MoodChange where
  | noData
  | change (initialMood currentMood : EmotionCategory) (sentimentChange : ℚ)
      (improved : Bool) (messagesCount : Nat)
deriving DecidableEq

/-- `UserSession.get_mood_change`: the no-data default when either snapshot is
missing, otherwise the delta of the current over the initial sentiment score. -/
def get_mood_change (s : UserSession) : MoodChange :=
  match s.initial_mood, s.current_mood with
  | Option.some im, Option.some cm =>
    MoodChange.change im.emotion_category cm.emotion_category
      (cm.sentiment_score - im.sentiment_score)
      (decide (cm.sentiment_score - im.sentiment_score > 0))
      s.conversation_history.length
  | _, _ => MoodChange.noData

/-! ### `user_manager.py`: end_chat_session -/

/-- A row of the `chat_sessions` table (timestamps as abstract ticks). -/
structure ChatSessionRow where
  user_id : List Char
  session_start : Nat
  session_end : Option Nat
  initial_emotion : List Char
  initial_sentiment : ℚ
  final_emotion : Option (List Char)
  final_sentiment : Option ℚ
  mood_improvement : Option ℚ
deriving DecidableEq

/-- The persistent store of chat sessions, keyed by the integer primary key. -/
def SessionStore : Type := List (Nat × ChatSessionRow)

/-- `SELECT initial_sentiment FROM chat_sessions WHERE id = ?` with
`fetchone()`: the first row with the given id, if any. -/
def lookupSession (db : SessionStore) (sessionId : Nat) : Option ChatSessionRow :=
  (db.find? (fun p => p.1 == sessionId)).map Prod.snd

/-- The dictionary `end_chat_session` returns in the found case. -/
structure EndSessionResult where
  improvement : ℚ
  improved : Bool
  stable : Bool
  declined : Bool
deriving DecidableEq

/-- The `UPDATE chat_sessions SET ... WHERE id = ?` of `end_chat_session`. -/
def updateSessionRow (db : SessionStore) (sessionId : Nat) (now : Nat)
    (finalEmotion : List Char) (finalSentiment moodImprovement : ℚ) :
    SessionStore :=
  db.map (fun p =>
    if p.1 == sessionId then
      (p.1,
       { p.2 with
         session_end := some now
         final_emotion := some finalEmotion
         final_sentiment := some finalSentiment
         mood_improvement := some moodImprovement })
    else p)

/-- `UserManager.end_chat_session`: look the session up by id; if found,
compute `mood_improvement = final - initial`, persist it and return the
improved / stable / declined verdict; if not found, fall through and return
`None` leaving the store untouched. -/
def end_chat_session (db : SessionStore) (sessionId : Nat)
    (finalEmotion : List Char) (finalSentiment : ℚ) (now : Nat) :
    SessionStore × Option EndSessionResult :=
  match lookupSession db sessionId with
  | Option.none => (db, Option.none)
  | Option.some row =>
    let moodImprovement := finalSentiment - row.initial_sentiment
    (updateSessionRow db sessionId now finalEmotion finalSentiment moodImprovement,
     some
       { improvement := moodImprovement
         improved := decide (moodImprovement > 1 / 10)
         stable := decide (-(1 / 10) ≤ moodImprovement ∧ moodImprovement ≤ 1 / 10)
         declined := decide (moodImprovement < -(1 / 10)) })

/-! ### Specification-side predicates

The Props below restate the spec's matching notions; the lemmas connect them
to the executable translations above. -/

/-- The spec's word-boundary occurrence: the keyword occurs as a separate
token sequence, i.e. the characters adjacent to the occurrence (when they
exist) are not word characters. -/
def OccursAsToken (kw text : List Char) : Prop :=
  ∃ pre post, text = pre ++ kw ++ post ∧
    boundaryOk pre.getLast? = true ∧ boundaryOk post.head? = true

/-- The keywords of the handler table matched by a lowercased text, in table
order (the spine of `detect_crisis`'s keyword loop). -/
def crisisMatched (text : List Char) : List (List Char) :=
  CRISIS_KEYWORDS.filter (fun kw => containsSub kw (pyLower text))

/-! ### Helper lemmas -/

theorem containsSub_iff (kw t : List Char) : containsSub kw t = true ↔ kw <:+: t := by
  induction t with
  | nil =>
    simp [containsSub, List.isPrefixOf_iff_prefix, List.prefix_nil, List.infix_nil]
  | cons c rest ih =>
    simp [containsSub, List.isPrefixOf_iff_prefix, ih, List.infix_cons_iff]

theorem getLast?_cons_orElse {α : Type} (c : α) (l : List α) :
    (c :: l).getLast? = l.getLast?.orElse (fun _ => some c) := by
  cases l with
  | nil => rfl
  | cons d l' =>
    rw [List.getLast?_cons_cons]
    cases h : (d :: l').getLast? with
    | none => simp [List.getLast?_cons_cons] at h
    | some x => rfl

theorem orElse_some_absorb {α : Type} (a : Option α) (c : α) (f : Unit → Option α) :
    (a.orElse (fun _ => some c)).orElse f = a.orElse (fun _ => some c) := by
  cases a <;> rfl

theorem wbSearch_iff (kw : List Char) (prev : Option Char) (t : List Char) :
    wbSearch kw prev t = true ↔
      ∃ pre post, t = pre ++ kw ++ post ∧
        boundaryOk (pre.getLast?.orElse (fun _ => prev)) = true ∧
        boundaryOk post.head? = true := by
  induction t generalizing prev with
  | nil =>
    constructor
    · intro h
      simp only [wbSearch, matchHere, Bool.and_eq_true,
        List.isPrefixOf_iff_prefix, List.prefix_nil] at h
      obtain ⟨⟨hb, hkw⟩, -⟩ := h
      subst hkw
      exact ⟨[], [], rfl, hb, rfl⟩
    · rintro ⟨pre, post, heq, h1, h2⟩
      obtain ⟨h0, hpost⟩ := List.append_eq_nil.mp heq.symm
      obtain ⟨hpre, hkw⟩ := List.append_eq_nil.mp h0
      subst hpre
      subst hkw
      simp only [wbSearch, matchHere, Bool.and_eq_true,
        List.isPrefixOf_iff_prefix, List.prefix_nil]
      exact ⟨⟨h1, trivial⟩, rfl⟩
  | cons c rest ih =>
    constructor
    · intro h
      have h' : matchHere kw prev (c :: rest) = true ∨
          wbSearch kw (some c) rest = true := by
        simpa [wbSearch] using h
      rcases h' with hm | hrec
      · simp only [matchHere, Bool.and_eq_true, List.isPrefixOf_iff_prefix] at hm
        obtain ⟨⟨hb, hp⟩, ha⟩ := hm
        obtain ⟨post, hpost⟩ := hp
        refine ⟨[], post, by simp [hpost.symm], hb, ?_⟩
        have hd : (c :: rest).drop kw.length = post := by
          rw [← hpost, List.drop_left]
        rwa [hd] at ha
      · obtain ⟨pre, post, heq, h1, h2⟩ := (ih (some c)).mp hrec
        refine ⟨c :: pre, post, by simp [heq], ?_, h2⟩
        rw [getLast?_cons_orElse, orElse_some_absorb]
        exact h1
    · rintro ⟨pre, post, heq, h1, h2⟩
      cases pre with
      | nil =>
        simp only [List.nil_append] at heq
        have hp : kw.isPrefixOf (c :: rest) = true := by
          rw [List.isPrefixOf_iff_prefix, heq]
          exact ⟨post, rfl⟩
        have ha : boundaryOk ((c :: rest).drop kw.length).head? = true := by
          rw [heq, List.drop_left]
          exact h2
        have hb : boundaryOk prev = true := h1
        have hm : matchHere kw prev (c :: rest) = true := by
          simp only [matchHere, hb, hp, ha, Bool.and_self]
        simp [wbSearch, hm]
      | cons c' pre' =>
        have hc : c = c' := by
          have hh := congrArg (fun l => l.head?) heq
          simpa using hh
        subst hc
        have heq' : rest = pre' ++ kw ++ post := by
          have ht := congrArg (fun l => l.tail) heq
          simpa using ht
        have h1' : boundaryOk (pre'.getLast?.orElse (fun _ => some c)) = true := by
          rw [getLast?_cons_orElse, orElse_some_absorb] at h1
          exact h1
        have hrec : wbSearch kw (some c) rest = true :=
          (ih (some c)).mpr ⟨pre', post, heq', h1', h2⟩
        simp [wbSearch, hrec]

/-- `has_keyword` agrees with the spec-side word-boundary occurrence. -/
theorem has_keyword_iff (text : List Char) (kws : List (List Char)) :
    has_keyword text kws = true ↔ ∃ kw ∈ kws, OccursAsToken kw text := by
  simp only [has_keyword, List.any_eq_true, OccursAsToken]
  constructor
  · rintro ⟨kw, hmem, hsearch⟩
    obtain ⟨pre, post, heq, h1, h2⟩ := (wbSearch_iff kw Option.none text).mp hsearch
    refine ⟨kw, hmem, pre, post, heq, ?_, h2⟩
    cases hl : pre.getLast? with
    | none => rfl
    | some x => rw [hl] at h1; exact h1
  · rintro ⟨kw, hmem, pre, post, heq, h1, h2⟩
    refine ⟨kw, hmem, (wbSearch_iff kw Option.none text).mpr
      ⟨pre, post, heq, ?_, h2⟩⟩
    cases hl : pre.getLast? with
    | none => rfl
    | some x => rw [hl] at h1; exact h1

theorem crisisKeywordFold_aux (kws : List (List Char)) (tl : List Char)
    (acc : List (List Char × ℚ) × ℚ) :
    kws.foldl
        (fun acc kw =>
          if containsSub kw tl then (acc.1 ++ [(kw, 9 / 10)], 9 / 10) else acc)
        acc =
      (acc.1 ++ (kws.filter (fun kw => containsSub kw tl)).map (fun kw => (kw, (9 : ℚ) / 10)),
       if kws.filter (fun kw => containsSub kw tl) = [] then acc.2 else 9 / 10) := by
  induction kws generalizing acc with
  | nil => simp
  | cons kw kws ih =>
    by_cases h : containsSub kw tl = true
    · simp only [List.foldl_cons, List.filter_cons, h, if_true, ih,
        List.map_cons, List.append_assoc, List.cons_append, List.nil_append]
      simp
    · simp only [List.foldl_cons, List.filter_cons, h, Bool.false_eq_true,
        if_false, ih]

theorem crisisKeywordFold_eq (tl : List Char) :
    crisisKeywordFold CRISIS_KEYWORDS tl =
      ((CRISIS_KEYWORDS.filter (fun kw => containsSub kw tl)).map
         (fun kw => (kw, (9 : ℚ) / 10)),
       if CRISIS_KEYWORDS.filter (fun kw => containsSub kw tl) = [] then 0
       else 9 / 10) := by
  rw [crisisKeywordFold, crisisKeywordFold_aux]
  simp

/-- `detect_crisis`, written out over the matched-keyword list. -/
theorem detect_crisis_eq (text : List Char) (score : ℚ) :
    detect_crisis text score =
      (decide ((if score < -(7 / 10) ∧ crisisMatched text ≠ [] then
            min 1 ((if crisisMatched text = [] then (0 : ℚ) else 9 / 10) + 1 / 10)
          else if crisisMatched text = [] then (0 : ℚ) else 9 / 10) ≥ 80 / 100),
       (if score < -(7 / 10) ∧ crisisMatched text ≠ [] then
          min 1 ((if crisisMatched text = [] then (0 : ℚ) else 9 / 10) + 1 / 10)
        else if crisisMatched text = [] then (0 : ℚ) else 9 / 10),
       (crisisMatched text).map (fun kw => (kw, (9 : ℚ) / 10))) := by
  have h := crisisKeywordFold_eq (pyLower text)
  rw [detect_crisis, crisis_threshold, h]
  rcases eq_or_ne (crisisMatched text) [] with he | hne
  · simp [crisisMatched] at he
    simp [crisisMatched, he, List.map_eq_nil_iff]
  · simp only [crisisMatched] at hne
    simp only [crisisMatched, hne, if_false, ne_eq, not_false_iff, and_true]
    have hmap : (CRISIS_KEYWORDS.filter (fun kw => containsSub kw (pyLower text))).map
        (fun kw => (kw, (9 : ℚ) / 10)) ≠ [] := by
      simpa [List.map_eq_nil_iff] using hne
    simp [hmap, hne]

theorem record_mood_foldl (es : List MoodEntry) (s : UserSession) :
    (es.foldl record_mood s).mood_log = s.mood_log ++ es ∧
    (es.foldl record_mood s).initial_mood =
      s.initial_mood.orElse (fun _ => es.head?) ∧
    (es.foldl record_mood s).current_mood =
      es.getLast?.orElse (fun _ => s.current_mood) ∧
    (es.foldl record_mood s).conversation_history = s.conversation_history := by
  induction es generalizing s with
  | nil => simp
  | cons e es ih =>
    obtain ⟨hlog, hinit, hcur, hhist⟩ := ih (record_mood s e)
    refine ⟨?_, ?_, ?_, ?_⟩
    · rw [List.foldl_cons, hlog]
      simp [record_mood]
    · rw [List.foldl_cons, hinit]
      simp only [record_mood]
      cases h : s.initial_mood with
      | none => simp [h]
      | some m => simp [h]
    · rw [List.foldl_cons, hcur]
      rw [getLast?_cons_orElse]
      simp only [record_mood]
      cases hl : es.getLast? with
      | none => rfl
      | some x => rfl
    · rw [List.foldl_cons, hhist]
      simp [record_mood]

theorem lookupSession_update (db : SessionStore) (sid : Nat) (now : Nat)
    (fe : List Char) (fs mi : ℚ) :
    lookupSession (updateSessionRow db sid now fe fs mi) sid =
      (lookupSession db sid).map (fun row =>
        { row with
          session_end := some now
          final_emotion := some fe
          final_sentiment := some fs
          mood_improvement := some mi }) := by
  induction db with
  | nil => rfl
  | cons p db ih =>
    by_cases h : p.1 = sid
    · simp [lookupSession, updateSessionRow, List.find?, h]
    · have hb : (p.1 == sid) = false := by simpa using h
      simp only [lookupSession, updateSessionRow, List.map_cons] at ih ⊢
      rw [List.find?_cons, List.find?_cons]
      simp only [hb, if_false]
      simpa [lookupSession, updateSessionRow, hb] using ih

/-! ### Claim theorems -/

/-- C4: the emotion-category function is total and deterministic in the
combined score, with pairwise-disjoint, gapless bins whose boundaries are
-0.75, -0.25, -0.05, 0.05, 0.25, 0.75: sweeping the score from -1 to 1 passes
through VERY_NEGATIVE, NEGATIVE, SLIGHTLY_NEGATIVE, NEUTRAL,
SLIGHTLY_POSITIVE, POSITIVE, VERY_POSITIVE exactly once each. -/
theorem categorize_emotion_partition (s : ℚ) :
    (categorize_emotion s = EmotionCategory.very_negative ↔ s ≤ -(75 / 100)) ∧
    (categorize_emotion s = EmotionCategory.negative ↔
      -(75 / 100) < s ∧ s ≤ -(25 / 100)) ∧
    (categorize_emotion s = EmotionCategory.slightly_negative ↔
      -(25 / 100) < s ∧ s ≤ -(5 / 100)) ∧
    (categorize_emotion s = EmotionCategory.neutral ↔
      -(5 / 100) < s ∧ s ≤ 5 / 100) ∧
    (categorize_emotion s = EmotionCategory.slightly_positive ↔
      5 / 100 < s ∧ s ≤ 25 / 100) ∧
    (categorize_emotion s = EmotionCategory.positive ↔
      25 / 100 < s ∧ s ≤ 75 / 100) ∧
    (categorize_emotion s = EmotionCategory.very_positive ↔ 75 / 100 < s) := by
  unfold categorize_emotion
  split_ifs with h1 h2 h3 h4 h5 h6 <;>
    refine ⟨?_, ?_, ?_, ?_, ?_, ?_, ?_⟩ <;>
    simp only [reduceCtorEq, false_iff, eq_self_iff_true, true_iff, not_and,
      not_le, not_lt] at * <;>
    first
      | linarith
      | (intro h; linarith)
      | (constructor <;> linarith)

/-- C5: the combined sentiment score is the 0.6/0.4 weighted blend clamped to
[-1, 1], the emotion intensity is its absolute value, and consequently the
combined score lies in [-1, 1] and the intensity in [0, 1]. -/
theorem combine_scores_clamped_intensity (a b : ℚ) :
    combine_sentiment_scores a b =
      max (-1) (min 1 (6 / 10 * a + 4 / 10 * b)) ∧
    -1 ≤ combine_sentiment_scores a b ∧
    combine_sentiment_scores a b ≤ 1 ∧
    get_emotion_intensity (combine_sentiment_scores a b) =
      |combine_sentiment_scores a b| ∧
    0 ≤ get_emotion_intensity (combine_sentiment_scores a b) ∧
    get_emotion_intensity (combine_sentiment_scores a b) ≤ 1 := by
  have hcomm : a * (6 / 10) + b * (4 / 10) = 6 / 10 * a + 4 / 10 * b := by ring
  have h1 : -1 ≤ combine_sentiment_scores a b := le_max_left _ _
  have h2 : combine_sentiment_scores a b ≤ 1 := by
    rw [combine_sentiment_scores]
    exact max_le (by norm_num) (min_le_left _ _)
  refine ⟨by rw [combine_sentiment_scores, hcomm], h1, h2, rfl, abs_nonneg _, ?_⟩
  rw [get_emotion_intensity]
  exact abs_le.mpr ⟨h1, h2⟩

/-- C3: on any lowercased text, crisis detection is priority-ordered substring
containment: a contained crisis phrase gives (true, CRITICAL) outright;
otherwise a contained self-harm keyword gives (true, CRITICAL); otherwise the
result is (false, NONE). -/
theorem detect_crisis_indicators_priority (text : List Char) :
    detect_crisis_indicators text =
      if ∃ p ∈ CRISIS_PHRASES, p <:+: text then (true, CrisisSeverity.critical)
      else if ∃ k ∈ SELF_HARM_KEYWORDS, k <:+: text then
        (true, CrisisSeverity.critical)
      else (false, CrisisSeverity.none) := by
  have e1 : CRISIS_PHRASES.any (fun phrase => containsSub phrase text) = true ↔
      ∃ p ∈ CRISIS_PHRASES, p <:+: text := by
    simp [List.any_eq_true, containsSub_iff]
  have e2 : SELF_HARM_KEYWORDS.any (fun keyword => containsSub keyword text) = true ↔
      ∃ k ∈ SELF_HARM_KEYWORDS, k <:+: text := by
    simp [List.any_eq_true, containsSub_iff]
  cases text with
  | nil =>
    have hp : ¬ ∃ p ∈ CRISIS_PHRASES, p <:+: ([] : List Char) := by
      rintro ⟨p, hmem, hinf⟩
      rw [List.infix_nil] at hinf
      subst hinf
      revert hmem
      decide
    have hk : ¬ ∃ k ∈ SELF_HARM_KEYWORDS, k <:+: ([] : List Char) := by
      rintro ⟨k, hmem, hinf⟩
      rw [List.infix_nil] at hinf
      subst hinf
      revert hmem
      decide
    simp only [detect_crisis_indicators, List.isEmpty_nil, if_true, hp, hk,
      if_false]
  | cons c rest =>
    rw [detect_crisis_indicators]
    by_cases hp : ∃ p ∈ CRISIS_PHRASES, p <:+: c :: rest
    · simp [e1.mpr hp, hp]
    · have h1 : CRISIS_PHRASES.any (fun phrase => containsSub phrase (c :: rest)) = false := by
        rw [← Bool.not_eq_true]
        exact fun h => hp (e1.mp h)
      by_cases hk : ∃ k ∈ SELF_HARM_KEYWORDS, k <:+: c :: rest
      · simp [h1, e2.mpr hk, hp, hk]
      · have h2 : SELF_HARM_KEYWORDS.any
            (fun keyword => containsSub keyword (c :: rest)) = false := by
          rw [← Bool.not_eq_true]
          exact fun h => hk (e2.mp h)
        simp [h1, h2, hp, hk]

/-- C7 (amended): the stress, depression and positive flags are set by
word-boundary matching — a keyword counts only when it occurs as a separate
token sequence — but the self-harm flag is set by plain substring
containment, so a keyword inside a longer token also sets it. -/
theorem detect_mental_state_matching (text : List Char) :
    ((detect_mental_state text).stress_indicators = true ↔
      ∃ kw ∈ STRESS_KEYWORDS, OccursAsToken kw text) ∧
    ((detect_mental_state text).depression_indicators = true ↔
      ∃ kw ∈ DEPRESSION_KEYWORDS, OccursAsToken kw text) ∧
    ((detect_mental_state text).positive_indicators = true ↔
      ∃ kw ∈ POSITIVE_KEYWORDS, OccursAsToken kw text) ∧
    ((detect_mental_state text).self_harm_indicators = true ↔
      ∃ kw ∈ SELF_HARM_KEYWORDS, kw <:+: text) := by
  refine ⟨?_, ?_, ?_, ?_⟩
  · exact has_keyword_iff text STRESS_KEYWORDS
  · exact has_keyword_iff text DEPRESSION_KEYWORDS
  · exact has_keyword_iff text POSITIVE_KEYWORDS
  · simp [detect_mental_state, List.any_eq_true, containsSub_iff]

/-- C7, counterexample to the claim as stated: in "woodcutting" no self-harm
keyword occurs as a separate token ("cutting" only occurs inside the longer
token), yet the self-harm flag is set. -/
theorem self_harm_flag_not_word_bounded :
    (detect_mental_state "woodcutting".toList).self_harm_indicators = true ∧
    ¬ ∃ kw ∈ SELF_HARM_KEYWORDS, OccursAsToken kw "woodcutting".toList := by
  constructor
  · decide
  · intro h
    have hk : has_keyword "woodcutting".toList SELF_HARM_KEYWORDS = true :=
      (has_keyword_iff "woodcutting".toList SELF_HARM_KEYWORDS).mpr h
    have hk' : has_keyword "woodcutting".toList SELF_HARM_KEYWORDS = false := by
      decide
    rw [hk] at hk'
    exact Bool.noConfusion hk'

theorem foldr_max_weights (l : List (List Char)) :
    ((l.map (fun kw => (kw, (9 : ℚ) / 10))).map Prod.snd).foldr max 0 =
      if l = [] then 0 else 9 / 10 := by
  induction l with
  | nil => simp
  | cons x l ih =>
    simp only [List.map_cons, List.foldr_cons, ih]
    by_cases h : l = []
    · subst h
      simp only [if_true, if_pos]
      exact max_eq_left (by norm_num)
    · simp [h]

/-- C2: `detect_crisis` severity is the maximum weight of the matched
keywords (0 when none matched), bumped by 0.1 capped at 1.0 exactly when the
sentiment score is below -0.7 and at least one keyword matched; the crisis
flag is set exactly when the severity reaches the 0.80 threshold. -/
theorem detect_crisis_severity_rule (text : List Char) (score : ℚ) :
    ((detect_crisis text score).2.1 =
      if score < -(7 / 10) ∧ (detect_crisis text score).2.2 ≠ [] then
        min 1 ((((detect_crisis text score).2.2).map Prod.snd).foldr max 0 + 1 / 10)
      else (((detect_crisis text score).2.2).map Prod.snd).foldr max 0) ∧
    ((detect_crisis text score).1 = true ↔
      (detect_crisis text score).2.1 ≥ 80 / 100) := by
  rw [detect_crisis_eq]
  dsimp only
  constructor
  · rw [foldr_max_weights]
    simp only [ne_eq, List.map_eq_nil_iff]
  · simp [decide_eq_true_eq]

theorem crisisMatched_ne_nil_iff (text : List Char) :
    crisisMatched text ≠ [] ↔ ∃ kw ∈ CRISIS_KEYWORDS, kw <:+: pyLower text := by
  constructor
  · intro h
    obtain ⟨kw, hkw⟩ := List.exists_mem_of_ne_nil _ h
    have hmem := List.mem_filter.mp hkw
    exact ⟨kw, hmem.1, (containsSub_iff _ _).mp hmem.2⟩
  · rintro ⟨kw, hmem, hinf⟩ hnil
    have hall := List.filter_eq_nil_iff.mp hnil kw hmem
    exact hall ((containsSub_iff _ _).mpr hinf)

/-- C10: the configured keyword table is a list, so every matched keyword
carries the fixed weight 0.9; any text containing a configured crisis keyword
as a case-insensitive substring is flagged as a crisis with severity at least
0.9, whatever the sentiment score is. -/
theorem crisis_keyword_forces_crisis (text : List Char) (score : ℚ)
    (h : ∃ kw ∈ CRISIS_KEYWORDS, kw <:+: pyLower text) :
    (detect_crisis text score).1 = true ∧
    (detect_crisis text score).2.1 ≥ 9 / 10 := by
  have hm : crisisMatched text ≠ [] := (crisisMatched_ne_nil_iff text).mpr h
  have hB : (if crisisMatched text = [] then (0 : ℚ) else 9 / 10) = 9 / 10 :=
    if_neg hm
  rw [detect_crisis_eq]
  dsimp only
  rw [hB]
  by_cases hs : score < -(7 / 10) ∧ crisisMatched text ≠ []
  · rw [if_pos hs]
    have h1 : (9 : ℚ) / 10 + 1 / 10 = 1 := by norm_num
    rw [h1, min_self]
    constructor
    · simp only [decide_eq_true_eq]
      norm_num
    · norm_num
  · rw [if_neg hs]
    constructor
    · simp only [decide_eq_true_eq]
      norm_num
    · norm_num

/-- Witness for C10 at a concrete input: "I want to kill myself" contains the
configured keyword "kill myself". -/
theorem crisis_keyword_forces_crisis_witness :
    (detect_crisis "I want to kill myself".toList 0).1 = true ∧
    (detect_crisis "I want to kill myself".toList 0).2.1 ≥ 9 / 10 :=
  crisis_keyword_forces_crisis "I want to kill myself".toList 0
    ⟨"kill myself".toList, by decide, (containsSub_iff _ _).mp (by decide)⟩

/-- C1 (amended): the orchestrator escalates exactly when the crisis
handler's weighted decision fires — equivalently, exactly when some keyword
of the handler's table occurs in the lowercased message — whatever the
sentiment oracles return; the analyzer's phrase/keyword check does not
contribute to the escalation decision. -/
theorem process_is_crisis_iff_handler_keyword (o : Scorers)
    (userMessage : List Char) :
    process_is_crisis o userMessage = true ↔
      ∃ kw ∈ CRISIS_KEYWORDS, kw <:+: pyLower userMessage := by
  rw [process_is_crisis, get_crisis_response_flag, detect_crisis_eq]
  dsimp only
  simp only [decide_eq_true_eq]
  rw [← crisisMatched_ne_nil_iff]
  by_cases hm : crisisMatched userMessage = []
  · have hcond : ¬(process_sentiment_score o userMessage < -(7 / 10) ∧
        crisisMatched userMessage ≠ []) := fun hc => hc.2 hm
    rw [if_neg hcond, if_pos hm]
    constructor
    · intro hge
      exact absurd hge (by norm_num)
    · intro hne
      exact absurd hm hne
  · have hB : (if crisisMatched userMessage = [] then (0 : ℚ) else 9 / 10) =
        9 / 10 := if_neg hm
    rw [hB]
    by_cases hs : process_sentiment_score o userMessage < -(7 / 10)
    · rw [if_pos ⟨hs, hm⟩]
      have h1 : (9 : ℚ) / 10 + 1 / 10 = 1 := by norm_num
      rw [h1, min_self]
      exact ⟨fun _ => hm, fun _ => by norm_num⟩
    · rw [if_neg (fun hc => hs hc.1)]
      exact ⟨fun _ => hm, fun _ => by norm_num⟩

/-- C1, counterexample to the claim as stated: for the message
"suicidal thoughts" (and sentiment oracles returning 0) the analyzer's
phrase check fires, so the OR of the two checks is true, yet the
orchestrator's escalation flag is false — the orchestrator uses only the
crisis handler's decision. -/
theorem process_escalation_not_the_union :
    process_is_crisis ⟨fun _ => 0, fun _ => 0⟩ "suicidal thoughts".toList = false ∧
    ((detect_crisis_indicators (normalizeText "suicidal thoughts".toList)).1 ||
      (detect_crisis "suicidal thoughts".toList
        (process_sentiment_score ⟨fun _ => 0, fun _ => 0⟩
          "suicidal thoughts".toList)).1) = true := by
  constructor
  · have h : crisisKeywordFold CRISIS_KEYWORDS
        (pyLower "suicidal thoughts".toList) = ([], 0) := by decide
    simp only [process_is_crisis, get_crisis_response_flag, detect_crisis,
      crisis_threshold, h]
    norm_num
  · have h : (detect_crisis_indicators
        (normalizeText "suicidal thoughts".toList)).1 = true := by decide
    rw [h, Bool.true_or]

/-- C6: a null, empty or non-string input yields the fixed default result —
combined score 0, category NEUTRAL, intensity 0, all four mental-state flags
false, crisis false — and the result does not depend on the polarity
scorers, which are never consulted. -/
theorem analyze_sentiment_invalid_default (o : Scorers) (input : PyValue)
    (h : input = PyValue.pynone ∨ input = PyValue.nonStr ∨
      input = PyValue.pystr []) :
    analyze_sentiment o input = get_default_sentiment ∧
    (analyze_sentiment o input).combined_sentiment_score = 0 ∧
    (analyze_sentiment o input).emotion_category = EmotionCategory.neutral ∧
    (analyze_sentiment o input).emotion_intensity = 0 ∧
    (analyze_sentiment o input).mental_state_detected =
      ⟨false, false, false, false⟩ ∧
    (analyze_sentiment o input).crisis_detected = false ∧
    ∀ o2 : Scorers, analyze_sentiment o2 input = analyze_sentiment o input := by
  have hd : analyze_sentiment o input = get_default_sentiment := by
    rcases h with h | h | h <;> subst h <;> rfl
  refine ⟨hd, by rw [hd]; rfl, by rw [hd]; rfl, by rw [hd]; rfl,
    by rw [hd]; rfl, by rw [hd]; rfl, ?_⟩
  intro o2
  have hd2 : analyze_sentiment o2 input = get_default_sentiment := by
    rcases h with h | h | h <;> subst h <;> rfl
  rw [hd, hd2]

/-- Witness for C6 at the empty-string input with nontrivial scorers. -/
theorem analyze_sentiment_invalid_default_witness :
    analyze_sentiment ⟨fun _ => 1, fun _ => -1⟩ (PyValue.pystr []) =
      get_default_sentiment ∧
    (analyze_sentiment ⟨fun _ => 1, fun _ => -1⟩
      (PyValue.pystr [])).combined_sentiment_score = 0 ∧
    (analyze_sentiment ⟨fun _ => 1, fun _ => -1⟩
      (PyValue.pystr [])).emotion_category = EmotionCategory.neutral ∧
    (analyze_sentiment ⟨fun _ => 1, fun _ => -1⟩
      (PyValue.pystr [])).emotion_intensity = 0 ∧
    (analyze_sentiment ⟨fun _ => 1, fun _ => -1⟩
      (PyValue.pystr [])).mental_state_detected =
      ⟨false, false, false, false⟩ ∧
    (analyze_sentiment ⟨fun _ => 1, fun _ => -1⟩
      (PyValue.pystr [])).crisis_detected = false ∧
    ∀ o2 : Scorers, analyze_sentiment o2 (PyValue.pystr []) =
      analyze_sentiment ⟨fun _ => 1, fun _ => -1⟩ (PyValue.pystr []) :=
  analyze_sentiment_invalid_default ⟨fun _ => 1, fun _ => -1⟩
    (PyValue.pystr []) (Or.inr (Or.inr rfl))

/-- C8: over any sequence of `record_mood` calls on a fresh session, the
initial mood is the first recorded snapshot (first write wins), the current
mood is the last one; `get_mood_change` is the no-data default when nothing
was recorded, and otherwise reports the current-minus-initial sentiment
delta with `improved` exactly when that delta is strictly positive. -/
theorem user_session_mood_tracking (es : List MoodEntry) :
    (es.foldl record_mood freshSession).initial_mood = es.head? ∧
    (es.foldl record_mood freshSession).current_mood = es.getLast? ∧
    (es.foldl record_mood freshSession).mood_log = es ∧
    (es = [] →
      get_mood_change (es.foldl record_mood freshSession) = MoodChange.noData) ∧
    (∀ e0 eN, es.head? = some e0 → es.getLast? = some eN →
      ∃ b, get_mood_change (es.foldl record_mood freshSession) =
          MoodChange.change e0.emotion_category eN.emotion_category
            (eN.sentiment_score - e0.sentiment_score) b 0 ∧
        (b = true ↔ eN.sentiment_score - e0.sentiment_score > 0)) := by
  obtain ⟨hlog, hinit, hcur, hhist⟩ := record_mood_foldl es freshSession
  have hinit' : (es.foldl record_mood freshSession).initial_mood = es.head? := by
    rw [hinit]
    rfl
  have hcur' : (es.foldl record_mood freshSession).current_mood = es.getLast? := by
    rw [hcur]
    cases hl : es.getLast? <;> rfl
  have hlog' : (es.foldl record_mood freshSession).mood_log = es := by
    rw [hlog]
    rfl
  refine ⟨hinit', hcur', hlog', ?_, ?_⟩
  · intro he
    subst he
    rfl
  · intro e0 eN h0 hN
    refine ⟨decide (eN.sentiment_score - e0.sentiment_score > 0), ?_, by simp⟩
    have hh : (es.foldl record_mood freshSession).conversation_history = [] := by
      rw [hhist]
      rfl
    simp only [get_mood_change, hinit', h0, hcur', hN, hh, List.length_nil]

/-- C9: ending a chat session with a known id computes the improvement as
final minus stored initial sentiment, persists it on the row, and reports
improved / stable / declined against the strict ±0.1 bands; an unknown id
returns nothing and leaves the store untouched. -/
theorem end_chat_session_spec (db : SessionStore) (sid : Nat) (fe : List Char)
    (fs : ℚ) (now : Nat) :
    (lookupSession db sid = Option.none →
      end_chat_session db sid fe fs now = (db, Option.none)) ∧
    (∀ row, lookupSession db sid = Option.some row →
      ∃ res, (end_chat_session db sid fe fs now).2 = Option.some res ∧
        res.improvement = fs - row.initial_sentiment ∧
        (res.improved = true ↔ fs - row.initial_sentiment > 1 / 10) ∧
        (res.stable = true ↔
          -(1 / 10) ≤ fs - row.initial_sentiment ∧
            fs - row.initial_sentiment ≤ 1 / 10) ∧
        (res.declined = true ↔ fs - row.initial_sentiment < -(1 / 10)) ∧
        lookupSession (end_chat_session db sid fe fs now).1 sid =
          Option.some
            { row with
              session_end := some now
              final_emotion := some fe
              final_sentiment := some fs
              mood_improvement := some (fs - row.initial_sentiment) }) := by
  constructor
  · intro h
    simp only [end_chat_session, h]
  · intro row h
    refine ⟨{ improvement := fs - row.initial_sentiment
              improved := decide (fs - row.initial_sentiment > 1 / 10)
              stable := decide (-(1 / 10) ≤ fs - row.initial_sentiment ∧
                fs - row.initial_sentiment ≤ 1 / 10)
              declined := decide (fs - row.initial_sentiment < -(1 / 10)) },
      ?_, rfl, by simp, by simp, by simp, ?_⟩
    · simp only [end_chat_session, h]
    · simp only [end_chat_session, h]
      rw [lookupSession_update, h]
      rfl

end MHC
